import Mathlib

/-!
Verification of the TIAS turn-orchestration engine against its specification.

Shallow embedding of the orchestrator modules under `src/orchestrator/`:
`identify_actor.py`, `tier_check.py`, `fragment_fetch.py`, `prompt_assemble.py`,
`llm_call.py`, `parse_response.py`, `validate_action.py`, `display.py` and the
`turn()` driver of `orchestrator.py`.  Pure Python string manipulation is
modelled over `List Char`; file reads, the embedding oracle, the random
chooser and the inference backend are passed in explicitly as values of an
environment record, mirroring the "external collaborator" boundary of the
specification.  Python case conversion is modelled with Lean's ASCII
`Char.toLower`/`Char.toUpper`; all inputs exercised by the theorems are ASCII.
-/

namespace TIAS

/-! ## Python string primitives -/

/-- Python `str.lower()` (ASCII model). -/
def pyLower (s : String) : String := ⟨s.toList.map Char.toLower⟩

/-- Python `str.upper()` (ASCII model). -/
def pyUpper (s : String) : String := ⟨s.toList.map Char.toUpper⟩

/-- Python `str.strip()` with no argument: remove leading and trailing whitespace. -/
def pyStrip (s : String) : String :=
  ⟨((s.toList.dropWhile Char.isWhitespace).reverse.dropWhile Char.isWhitespace).reverse⟩

/-- Python `str.strip(chars)`: remove leading and trailing characters drawn from `chars`. -/
def pyStripChars (chars : List Char) (s : String) : String :=
  ⟨((s.toList.dropWhile chars.contains).reverse.dropWhile chars.contains).reverse⟩

/-- Accumulating worker for `pySplitWs`: `acc` holds the current word reversed. -/
def pySplitWsAux : List Char → List Char → List String
  | [], acc => if acc.isEmpty then [] else [⟨acc.reverse⟩]
  | c :: cs, acc =>
    if c.isWhitespace then
      if acc.isEmpty then pySplitWsAux cs [] else (⟨acc.reverse⟩ : String) :: pySplitWsAux cs []
    else pySplitWsAux cs (c :: acc)

/-- Python `str.split()` with no argument: split on whitespace runs, dropping empty pieces. -/
def pySplitWs (s : String) : List String := pySplitWsAux s.toList []

/-- Worker for `pyReplace` (fuelled; each step consumes input). -/
def pyReplaceAux (pat rep : List Char) : Nat → List Char → List Char
  | 0, cs => cs
  | _ + 1, [] => []
  | fuel + 1, c :: cs =>
    if pat.isPrefixOf (c :: cs) then rep ++ pyReplaceAux pat rep fuel ((c :: cs).drop pat.length)
    else c :: pyReplaceAux pat rep fuel cs

/-- Python `str.replace(pat, rep)` for a non-empty pattern: replace
non-overlapping occurrences left to right. -/
def pyReplace (s pat rep : String) : String :=
  ⟨pyReplaceAux pat.toList rep.toList (s.toList.length + 1) s.toList⟩

/-- Decimal digit character for `n < 10` (used to model Python `str(int)`). -/
def digitChar : Nat → Char
  | 0 => '0' | 1 => '1' | 2 => '2' | 3 => '3' | 4 => '4'
  | 5 => '5' | 6 => '6' | 7 => '7' | 8 => '8' | _ => '9'

/-- Digit list of a natural number, most significant first (fuelled recursion). -/
def natDigitsAux : Nat → Nat → List Char
  | 0, _ => []
  | fuel + 1, n => if n < 10 then [digitChar n] else natDigitsAux fuel (n / 10) ++ [digitChar (n % 10)]

/-- Python `str(n)` for a natural number. -/
def natStr (n : Nat) : String := ⟨natDigitsAux (n + 1) n⟩

/-- Number of newline characters in a string (Python `s.count_of_nl`, i.e. `s.count` at `\n`). -/
def countNL (s : String) : Nat := s.toList.count '\n'

/-- Python `"\n\n".join(lines)` style joining used throughout the orchestrator. -/
def joinNN (lines : List String) : String := String.intercalate "\n\n" lines

/-- Python truthiness-based defaulting `opt or default` for optional strings. -/
def pyOrElse (o : Option String) (d : String) : String :=
  match o with
  | some s => if s = "" then d else s
  | none => d

/-- Python f-string interpolation of an `Optional[str]`: `None` renders as `"None"`. -/
def pyOptStr (o : Option String) : String :=
  match o with
  | some s => s
  | none => "None"

/-- Suffix test on strings via character lists (model of Python `str.endswith`). -/
def endsWithStr (s suffix : String) : Bool := suffix.toList.isSuffixOf s.toList

theorem digitChar_ne_newline (n : Nat) : digitChar n ≠ '\n' := by
  unfold digitChar
  split <;> decide

theorem natDigitsAux_count_newline (fuel n : Nat) : (natDigitsAux fuel n).count '\n' = 0 := by
  induction fuel generalizing n with
  | zero => simp [natDigitsAux]
  | succ fuel ih =>
    unfold natDigitsAux
    split
    · simp [List.count_cons, digitChar_ne_newline n]
    · simp [List.count_append, ih, List.count_cons, digitChar_ne_newline (n % 10)]

theorem countNL_natStr (n : Nat) : countNL (natStr n) = 0 := by
  simp [countNL, natStr, String.toList, natDigitsAux_count_newline]

/-! ## llm_call.py — data types and fallback

The network call itself is a black box; its three failure modes and the
empty-body check are modelled in `llm_call` further below, once the
environment record is available. -/

/-- Fixed fallback reply string, `llm_call.py` line 31 (`_FALLBACK_RESPONSE`). -/
def FALLBACK_RESPONSE : String := "[The council is silent. Something has gone wrong.]"

/-- Result record of `llm_call` (`llm_call.py` `LLMResult`). -/
structure LLMResult where
  raw : String
  flow_type : String
  success : Bool
  error : Option String := none
deriving DecidableEq

/-! ## parse_response.py

`_BLOCK_PATTERN` is the regex
`\[(THOUGHT|ACTION|CHAT)\](.*?)(?=\[(?:THOUGHT|ACTION|CHAT)\]|\Z)` with
DOTALL and IGNORECASE.  `finditer` over it is equivalent to: scan left to
right for a tag occurrence; a block's content runs from just after its tag
to the next tag occurrence (of any of the three tags) or the end of text;
text before the first tag is skipped.  `scanBlocks` below implements exactly
that scan; the dict comprehension keyed by `group(1).upper()` keeps the last
occurrence of a duplicated tag, which `dictGet` reproduces. -/

/-- Case-insensitive prefix test: does `cs` start with the (already lowercase)
pattern `pat`, comparing through `Char.toLower`? -/
def lcStartsWith : List Char → List Char → Bool
  | [], _ => true
  | _ :: _, [] => false
  | p :: ps, c :: cs => p == c.toLower && lcStartsWith ps cs

/-- Recognize one of the three tags `[THOUGHT]`, `[ACTION]`, `[CHAT]`
(case-insensitively) at the head of `cs`; return the canonical uppercase tag
name and the remaining characters. -/
def tagAt (cs : List Char) : Option (String × List Char) :=
  if lcStartsWith "[thought]".toList cs then some ("THOUGHT", cs.drop 9)
  else if lcStartsWith "[action]".toList cs then some ("ACTION", cs.drop 8)
  else if lcStartsWith "[chat]".toList cs then some ("CHAT", cs.drop 6)
  else none

/-- Take content characters up to the next recognized tag (or end of text);
returns the content and the rest (which starts at a tag, or is empty). -/
def takeContent : List Char → List Char × List Char
  | [] => ([], [])
  | c :: cs =>
    if (tagAt (c :: cs)).isSome then ([], c :: cs)
    else
      let p := takeContent cs
      (c :: p.1, p.2)

theorem takeContent_rest_length (cs : List Char) : (takeContent cs).2.length ≤ cs.length := by
  induction cs with
  | nil => simp [takeContent]
  | cons c cs ih =>
    unfold takeContent
    split
    · simp
    · simpa using Nat.le_succ_of_le ih

theorem lcStartsWith_length (ps cs : List Char) (h : lcStartsWith ps cs = true) :
    ps.length ≤ cs.length := by
  induction ps generalizing cs with
  | nil => simp
  | cons p ps ih =>
    cases cs with
    | nil => simp [lcStartsWith] at h
    | cons c cs =>
      simp only [lcStartsWith, Bool.and_eq_true] at h
      simpa using ih cs h.2

theorem tagAt_rest_length (cs : List Char) (tag : String) (rest : List Char)
    (h : tagAt cs = some (tag, rest)) : rest.length < cs.length := by
  unfold tagAt at h
  split at h
  · rename_i hp
    have hlen := lcStartsWith_length _ _ hp
    simp at hlen
    injection h with h'
    injection h' with h1 h2
    subst h2
    simp [List.length_drop]
    omega
  · split at h
    · rename_i hp
      have hlen := lcStartsWith_length _ _ hp
      simp at hlen
      injection h with h'
      injection h' with h1 h2
      subst h2
      simp [List.length_drop]
      omega
    · split at h
      · rename_i hp
        have hlen := lcStartsWith_length _ _ hp
        simp at hlen
        injection h with h'
        injection h' with h1 h2
        subst h2
        simp [List.length_drop]
        omega
      · exact absurd h (by simp)

/-- Scan for tag blocks, in order of occurrence (model of
`_BLOCK_PATTERN.finditer`): each element is the canonical tag name and the
stripped block content.  Structural recursion on a fuel counter; every step
strictly shortens the character list, so `cs.length + 1` fuel is exact. -/
def scanBlocksAux : Nat → List Char → List (String × String)
  | 0, _ => []
  | fuel + 1, cs =>
    match tagAt cs with
    | some (tag, rest) =>
      let p := takeContent rest
      (tag, pyStrip ⟨p.1⟩) :: scanBlocksAux fuel p.2
    | none =>
      match cs with
      | [] => []
      | _ :: cs' => scanBlocksAux fuel cs'

/-- All recognized tag blocks of a string. -/
def findBlocks (s : String) : List (String × String) :=
  scanBlocksAux (s.toList.length + 1) s.toList

/-- Python dict built by comprehension over the matches: for duplicate keys
the last occurrence wins; `dictGet` is `blocks.get(key)`. -/
def dictGet (blocks : List (String × String)) (key : String) : Option String :=
  (blocks.reverse.find? (fun b => b.1 == key)).map (fun b => b.2)

/-- Model of `_ACTION_VALID_PATTERN = ^\s*(FETCH|UPDATE)\s+\S+` with
IGNORECASE, used through `re.match` (anchored at the start). -/
def actionValidCheck (s : String) : Bool :=
  let cs := s.toList.dropWhile Char.isWhitespace
  let afterVerb : Option (List Char) :=
    if lcStartsWith "fetch".toList cs then some (cs.drop 5)
    else if lcStartsWith "update".toList cs then some (cs.drop 6)
    else none
  match afterVerb with
  | none => false
  | some rest =>
    match rest with
    | [] => false
    | c :: rest' => c.isWhitespace && !(rest'.dropWhile Char.isWhitespace).isEmpty

/-- Parsed response record (`parse_response.py` `ParsedResponse`). -/
structure ParsedResponse where
  thought : Option String
  action : Option String
  chat : String
  action_valid : Bool
  fallback_used : Bool
deriving DecidableEq

/-- `parse_response` (`parse_response.py` lines 45-100).  Mirrors the source:
strip the raw output, collect tag blocks; with no blocks the whole output is
the chat (fallback when empty); otherwise a truthy ACTION block is validated
against the verb grammar (discarded when malformed) and a missing or empty
CHAT block is replaced by the fixed fallback. -/
def parse_response (result : LLMResult) : ParsedResponse :=
  let raw := pyStrip result.raw
  let blocks := findBlocks raw
  if blocks.isEmpty then
    { thought := none
      action := none
      chat := if raw = "" then FALLBACK_RESPONSE else raw
      action_valid := false
      fallback_used := raw == "" }
  else
    let thought := dictGet blocks "THOUGHT"
    let action0 := dictGet blocks "ACTION"
    let chat := dictGet blocks "CHAT"
    let va : Bool × Option String :=
      match action0 with
      | some a =>
        if a ≠ "" then
          (if actionValidCheck a then (true, some a) else (false, none))
        else (false, some a)
      | none => (false, none)
    match chat with
    | none =>
      { thought := thought, action := va.2, chat := FALLBACK_RESPONSE
        action_valid := va.1, fallback_used := true }
    | some c =>
      if c = "" then
        { thought := thought, action := va.2, chat := FALLBACK_RESPONSE
          action_valid := va.1, fallback_used := true }
      else
        { thought := thought, action := va.2, chat := c
          action_valid := va.1, fallback_used := false }

/-! ## identify_actor.py

`ActorSpec` carries the four identity fields `load_actor_specs` reads, plus
the `spec.toml` fields that `tier_check.py`, `orchestrator._select_interruptor`
and `fragment_fetch.py` re-read on demand from the same file (tier scopes,
tier refusal texts, interrupt weight and self-interrupt flag).  The embedding
similarity oracle of `_implicit_match` is a specification non-goal (a black
box); its scored candidate list is passed to `identify_actor` as an explicit
argument.  Scores are modelled as rationals. -/

structure ActorSpec where
  first_name : String
  family_name : String
  nickname : String
  display_name : String
  tier_1_scope : String := ""
  tier_2_scope : String := ""
  tier_3_scope : String := ""
  error_out_of_tier_1 : String := ""
  error_out_of_tier_2 : String := ""
  interrupt_weight : Nat := 0
  can_interrupt_own_debate : Bool := false
deriving DecidableEq

/-- `ActorSpec.match_tokens`: all name tokens that trigger explicit routing,
lowercased; family name and nickname only when truthy (non-empty). -/
def ActorSpec.match_tokens (s : ActorSpec) : List String :=
  [pyLower s.first_name]
    ++ (if s.family_name ≠ "" then [pyLower s.family_name] else [])
    ++ (if s.nickname ≠ "" then [pyLower s.nickname] else [])

inductive FlowType where
  | standard
  | debate
  | ambiguous
  | too_vague
  | too_broad
  | no_match
deriving DecidableEq

inductive AdvisorRole where
  | main
  | support
deriving DecidableEq

structure ActorMatch where
  spec : ActorSpec
  role : AdvisorRole
  similarity : Option Rat := none
deriving DecidableEq

structure IdentifyResult where
  flow_type : FlowType
  actors : List ActorMatch := []
  stage_note : Option String := none
deriving DecidableEq

/-- `_explicit_match`: tokenize the lowercased input on whitespace, strip the
punctuation set `.,!?;:` from each token, and keep every actor one of whose
match tokens occurs among the input tokens. -/
def explicit_match (user_input : String) (specs : List ActorSpec) : List ActorSpec :=
  let tokens := (pySplitWs (pyLower user_input)).map (pyStripChars ".,!?;:".toList)
  specs.filter (fun s => s.match_tokens.any (fun t => tokens.contains t))

/-- `identify_actor` (`identify_actor.py` lines 174-226).  `scored` is the
result of `_implicit_match` for this input: candidate actors with similarity
scores at or above 0.3, sorted descending (the oracle's contract); it is only
consulted when the explicit phase yields no match. -/
def identify_actor (user_input : String) (specs : List ActorSpec)
    (scored : List (ActorSpec × Rat)) : IdentifyResult :=
  let explicit := explicit_match user_input specs
  if explicit.isEmpty then
    if scored.isEmpty then
      { flow_type := .too_vague
        stage_note := some "Query matched no advisor domain. Please be more specific." }
    else if scored.length ≥ 3 then
      { flow_type := .too_broad
        stage_note := some ("Query too broad — matches "
          ++ String.intercalate ", " (scored.map (fun p => p.1.display_name))
          ++ ". Narrow your scope.") }
    else
      let mains := scored.filter (fun p => p.2 ≥ mkRat 7 10)
      let supports := scored.filter (fun p => ¬ (p.2 ≥ mkRat 7 10))
      let actors :=
        mains.map (fun p => ({ spec := p.1, role := .main, similarity := some p.2 } : ActorMatch))
          ++ supports.map (fun p =>
              ({ spec := p.1, role := .support, similarity := some p.2 } : ActorMatch))
      let flow : FlowType := if actors.length = 2 ∧ mains.length ≠ 1 then .debate else .standard
      { flow_type := flow, actors := actors }
  else
    match explicit with
    | [s] => { flow_type := .standard, actors := [{ spec := s, role := .main }] }
    | _ =>
      { flow_type := .ambiguous
        actors := explicit.map (fun s => ({ spec := s, role := .main } : ActorMatch))
        stage_note := some ("Ambiguous: matches "
          ++ String.intercalate ", " (explicit.map (fun s => s.display_name))) }

/-! ## tier_check.py -/

inductive TierConfidence where
  | full
  | hedged
  | blocked
deriving DecidableEq

structure TierResult where
  actor : ActorMatch
  confidence : TierConfidence
  error_message : Option String := none
deriving DecidableEq

/-- `_is_codex`: the archival persona is recognized by its lowercased first name. -/
def is_codex (s : ActorSpec) : Bool := pyLower s.first_name == "codex"

/-- `_actor_max_tier`: highest tier whose `tier_N_scope` is non-empty after
stripping; scans tiers 1, 2, 3 in order with 1 as the default. -/
def actor_max_tier (s : ActorSpec) : Nat :=
  let m := 1
  let m := if pyStrip s.tier_1_scope ≠ "" then 1 else m
  let m := if pyStrip s.tier_2_scope ≠ "" then 2 else m
  if pyStrip s.tier_3_scope ≠ "" then 3 else m

/-- `tier_check` (`tier_check.py` lines 88-119): CODEX bypasses the gate;
otherwise gap ≤ 0 is full, gap = 1 hedged, gap ≥ 2 blocked with the
configured refusal text (key selected by the actor's max tier) or a generic
templated refusal. -/
def tier_check (a : ActorMatch) (current_tier : Nat) : TierResult :=
  if is_codex a.spec then { actor := a, confidence := .full }
  else
    let max_tier := actor_max_tier a.spec
    let gap : Int := (current_tier : Int) - (max_tier : Int)
    if gap ≤ 0 then { actor := a, confidence := .full }
    else if gap = 1 then { actor := a, confidence := .hedged }
    else
      let errRaw :=
        if max_tier = 1 then a.spec.error_out_of_tier_1
        else if max_tier = 2 then a.spec.error_out_of_tier_2
        else a.spec.error_out_of_tier_1
      let msg :=
        if pyStrip errRaw ≠ "" then pyStrip errRaw
        else a.spec.display_name ++ " cannot advise at Tier " ++ natStr current_tier ++ "."
      { actor := a, confidence := .blocked, error_message := some msg }

/-- `tier_check_all`: independent per-actor evaluation. -/
def tier_check_all (actors : List ActorMatch) (current_tier : Nat) : List TierResult :=
  actors.map (fun a => tier_check a current_tier)

/-! ## fragment_fetch.py — data types

`fragment_fetch` itself reads `spec.toml` and `persona.md` from disk; the
turn embedding below receives it as an environment function, since no claim
constrains fragment selection internals.  Its result types are embedded here
because `prompt_assemble` consumes them. -/

structure Fragment where
  category : String
  subject : Option String := none
  content : String
deriving DecidableEq

structure FetchResult where
  actor : ActorSpec
  fragments : List Fragment := []
deriving DecidableEq

/-- `FetchResult.assembled`: all fragment contents joined for prompt injection. -/
def FetchResult.assembled (fr : FetchResult) : String :=
  joinNN (fr.fragments.map (fun f => f.content))

/-! ## prompt_assemble.py -/

structure HistoryTurn where
  role : String
  speaker : String
  content : String
deriving DecidableEq

structure AssembledPrompt where
  system : String
  user : String
deriving DecidableEq

/-- The over-budget substitute text built by `_codex_report_or_stage_direction`:
the budget banner, the stage-direction instruction, and the three fixed
tone-reference examples joined by newlines. -/
def codex_over_budget_msg (line_count line_budget : Nat) : String :=
  "[CODEX REPORT EXCEEDS LINE BUDGET (" ++ natStr line_count ++ " lines > "
    ++ natStr line_budget ++ ")]\n"
    ++ "Generate a single in-character stage direction conveying information overload.\n"
    ++ "Tone reference (do not reproduce these exactly):\n"
    ++ String.intercalate "\n"
      ["[CODEX floods the room with figures. Lin is already three pages ahead. Everyone else has stopped pretending.]",
       "[The report continues. It has been continuing for some time. Wale has found something else to look at.]",
       "[CODEX appends a seventh appendix. The council\x27s attention has quietly left the building.]"]

/-- `_codex_report_or_stage_direction` (`prompt_assemble.py` lines 87-122),
pure core: the line budget (read from `codex/spec.toml`, field
`report_line_budget`, default 40) and the report returned by
`_load_gamestate` are passed in as values.  An empty report is replaced by
the fixed no-data placeholder; a report whose line count (newline count plus
one) exceeds the budget is replaced by the over-budget instruction; otherwise
the report is returned verbatim. -/
def codex_report_or_stage_direction (line_budget : Nat) (report : String) : String :=
  if report = "" then "[No game state data available. CODEX is silent.]"
  else
    let line_count := countNL report + 1
    if line_count ≤ line_budget then report
    else codex_over_budget_msg line_count line_budget

/-- `_format_history`: each turn as `SPEAKER: content` (speaker uppercased for
advisor turns, the literal `USER` otherwise), joined by blank lines. -/
def format_history (history : List HistoryTurn) : String :=
  if history.isEmpty then ""
  else joinNN (history.map (fun t =>
    (if t.role = "advisor" then pyUpper t.speaker else "USER") ++ ": " ++ t.content))

/-- The fixed tag-restriction instruction opening the suffix
(`prompt_assemble.py` line 185). -/
def TAG_INSTRUCTION : String :=
  "IMPORTANT: Your entire response must use ONLY these tags:\n[THOUGHT] your reasoning\n[CHAT] in-character response\nDo NOT write anything outside these tags."

/-- The fixed closing instruction appended after the query
(`prompt_assemble.py` line 193). -/
def CLOSING_INSTRUCTION : String :=
  "Respond now using [THOUGHT] and [CHAT] tags only."

/-- `prompt_assemble` (`prompt_assemble.py` lines 143-197).  File reads are
passed as values: `system_raw` is the content `load_system_prompt` reads from
`system.txt` (it strips the file content; the MD5 cache-change warning is log-only),
`gamestate` the report `_load_gamestate` produces, `codex_budget` the codex
line budget.  The suffix parts are joined by blank lines in the source order:
tag instruction, advisor context, game state (only with CODEX active),
recent history, query, closing instruction. -/
def prompt_assemble (fetch_results : List FetchResult) (query : String)
    (system_raw : String) (gamestate : String) (codex_budget : Nat)
    (history : List HistoryTurn) (tier : Nat) : AssembledPrompt :=
  let system := pyReplace (pyStrip system_raw) "{tier}" (natStr tier)
  let actor_section := String.intercalate "\n\n---\n\n" (fetch_results.map FetchResult.assembled)
  let is_codex_query := fetch_results.any (fun fr => pyLower fr.actor.first_name == "codex")
  let context_section :=
    if is_codex_query then codex_report_or_stage_direction codex_budget gamestate else ""
  let history_section := format_history history
  let parts :=
    [TAG_INSTRUCTION]
      ++ (if actor_section ≠ "" then ["## ADVISOR CONTEXT\n\n" ++ actor_section] else [])
      ++ (if context_section ≠ "" then ["## GAME STATE\n\n" ++ context_section] else [])
      ++ (if history_section ≠ "" then ["## RECENT HISTORY\n\n" ++ history_section] else [])
      ++ ["## QUERY\n\n" ++ query]
      ++ [CLOSING_INSTRUCTION]
  { system := system, user := joinNN parts }

/-! ## llm_call.py — call behavior

The outbound HTTP request is a black box; `BackendOutcome` enumerates its
observable outcomes for one turn: a timeout, any transport/HTTP failure
(`requests` exceptions, including `raise_for_status`), or a successful body.
`llm_call` converts every failure to the fixed fallback reply with
`success := false`, and treats an empty (post-strip) body as a failure too. -/

inductive BackendOutcome where
  | timeout
  | transportError (msg : String)
  | httpOk (body : String)
deriving DecidableEq

/-- Per-flow sampling configuration table (`LLM_CONFIGS`), `(max_tokens,
temperature)` keyed by flow type; unknown flow types fall back to the
`standard` entry (selection does not change the result shape). -/
def LLM_CONFIGS : List (String × Nat × Rat) :=
  [("standard", 150, mkRat 7 10), ("codex", 400, mkRat 1 5), ("debate_turn", 150, mkRat 4 5),
   ("debate_interrupt", 75, mkRat 1 2), ("spectator", 50, mkRat 1 2)]

/-- `llm_call` (`llm_call.py` lines 50-96) given the backend's outcome. -/
def llm_call (backend : BackendOutcome) (_prompt : AssembledPrompt)
    (flow_type : String) : LLMResult :=
  match backend with
  | .timeout =>
    { raw := FALLBACK_RESPONSE, flow_type := flow_type, success := false, error := some "timeout" }
  | .transportError msg =>
    { raw := FALLBACK_RESPONSE, flow_type := flow_type, success := false, error := some msg }
  | .httpOk body =>
    let raw := pyStrip body
    if raw = "" then
      { raw := FALLBACK_RESPONSE, flow_type := flow_type, success := false
        error := some "empty response" }
    else { raw := raw, flow_type := flow_type, success := true }

/-! ## validate_action.py

The decision ledger file `decision_log.json` is modelled as an association
list from normalized keys to rulings; `_load_log`/`_save_log` become the
`log` argument and the `log` field of the outcome.  The executor stubs
`_execute_fetch`/`_execute_update` log their intent and report success; the
`exec` trace field records each stub invocation, making "business logic was
executed" observable. -/

structure ActionResult where
  executed : Bool
  ruling : String
  rationale : Option String := none
  data_stub : Bool := false
deriving DecidableEq

inductive ExecEvent where
  | fetch (body : String)
  | update (body : String)
deriving DecidableEq

structure ActionOutcome where
  result : ActionResult
  log : List (String × String)
  exec : List ExecEvent
deriving DecidableEq

/-- `_log_key`: normalize the full action string (strip, lowercase). -/
def log_key (action : String) : String := pyLower (pyStrip action)

/-- Lookup in the ledger (Python `dict.get`): the value at the first entry
matching the key. -/
def logGet : List (String × String) → String → Option String
  | [], _ => none
  | e :: t, key => if e.1 == key then some e.2 else logGet t key

/-- Ledger write `log[key] = value` (Python dict assignment): overwrite the
existing entry in place, or append a new entry at the end. -/
def logSet : List (String × String) → String → String → List (String × String)
  | [], key, value => [(key, value)]
  | e :: t, key, value =>
    if e.1 == key then (key, value) :: t else e :: logSet t key value

/-- `_parse_action`: split the stripped action into `(verb, body)` on the
first whitespace run; a single token yields verb `UNKNOWN` with the original
action as body. -/
def parse_action (action : String) : String × String :=
  let s := (pyStrip action).toList
  let w := s.takeWhile (fun c => ¬ c.isWhitespace)
  let rest := (s.dropWhile (fun c => ¬ c.isWhitespace)).dropWhile Char.isWhitespace
  if rest.isEmpty then ("UNKNOWN", action)
  else (pyUpper ⟨w⟩, ⟨rest⟩)

/-- `validate_action` (`validate_action.py` lines 84-121).  FETCH executes
directly with no ledger interaction.  UPDATE checks the ledger under the
normalized key: a prior `denied` ruling short-circuits with no execution;
otherwise the update stub executes, and a first-ever ruling (no prior entry,
or a falsy one) is recorded as `allowed`.  Unknown verbs are denied with no
ledger write. -/
def validate_action (action : String) (log : List (String × String)) : ActionOutcome :=
  let vb := parse_action action
  if vb.1 = "FETCH" then
    { result := { executed := true, ruling := "fetch", data_stub := true }
      log := log, exec := [.fetch vb.2] }
  else if vb.1 = "UPDATE" then
    let key := log_key action
    let prior := logGet log key
    if prior = some "denied" then
      { result := { executed := false, ruling := "denied"
                    rationale := some ("Prior ruling denied this action: " ++ action) }
        log := log, exec := [] }
    else
      let result : ActionResult := { executed := true, ruling := "allowed", data_stub := true }
      let log2 := if prior = none ∨ prior = some "" then logSet log key "allowed" else log
      { result := result, log := log2, exec := [.update vb.2] }
  else
    { result := { executed := false, ruling := "denied"
                  rationale := some ("Unknown action verb: " ++ vb.1) }
      log := log, exec := [] }

/-! ## display.py -/

/-- `display` (`display.py` lines 28-57): pure formatting keyed by flow type. -/
def display (parsed : ParsedResponse) (flow_type : String) (speaker : Option String) : String :=
  let chat := pyStrip parsed.chat
  if chat = "" then ""
  else if flow_type = "spectator" then chat
  else if flow_type = "error" then "[SYSTEM] " ++ chat
  else
    let pre :=
      match speaker with
      | some s => pyUpper s ++ ": "
      | none => ""
    if flow_type = "debate_interrupt" then pre ++ chat ++ "\n\n— your decision."
    else pre ++ chat

/-! ## orchestrator.py — turn()

Session state owned by `OrchestratorState` (the pieces `turn` mutates, plus
the decision-ledger file content).  The environment record carries the
process-level collaborators: the loaded roster, the embedding oracle behind
`_implicit_match`, the random chooser behind `random.choices`, the
file-reading `fragment_fetch`, the inference backend, and the file contents
`prompt_assemble` would read.  The transcript append of `commit_log` is
modelled as succeeding (its failure path is out of the claims considered).

Python call semantics at the two `prompt_assemble(...)` call sites
(`orchestrator.py` lines 156-160 and 179-183): both pass the keyword
arguments `history`, `tier` and `date`, but `prompt_assemble`
(`prompt_assemble.py` lines 143-151) has no `date` parameter, so the call
raises `TypeError` before the callee body runs.  `call_prompt_assemble`
embeds that check explicitly over the literal parameter and keyword lists. -/

inductive PyErr where
  | typeError (msg : String)
  | indexError (msg : String)
deriving DecidableEq

inductive TurnEvent where
  | promptAssembleCalled
  | llmCalled (flow : String)
  | committed
deriving DecidableEq

structure OState where
  tier : Nat
  history : List HistoryTurn
  debate_turn : Nat
  decision_log : List (String × String)
deriving DecidableEq

structure TurnEnv where
  specs : List ActorSpec
  oracle : String → List (ActorSpec × Rat)
  choose : List (ActorSpec × Nat) → Nat
  fetch : ActorSpec → String → TierConfidence → Option (List String) → FetchResult
  backend : BackendOutcome
  systemText : String
  gamestate : String
  codexBudget : Nat

deriving instance DecidableEq for Except

structure TurnOutput where
  result : Except PyErr String
  state : OState
  trace : List TurnEvent
deriving DecidableEq

/-- `_stage_direction`: wrap a note in brackets. -/
def stage_direction (note : String) : String := "[" ++ note ++ "]"

/-- Formal parameter names of `prompt_assemble` (`prompt_assemble.py` lines
143-151). -/
def prompt_assemble_params : List String :=
  ["fetch_results", "query", "system_path", "campaigns_dir", "codex_spec_path",
   "history", "tier"]

/-- Keyword-argument names `orchestrator.turn` passes at both
`prompt_assemble` call sites (`orchestrator.py` lines 156-160 and 179-183). -/
def orchestrator_prompt_kwargs : List String := ["history", "tier", "date"]

/-- Python keyword binding: every keyword argument must name a formal
parameter, else the call raises `TypeError` before the callee runs. -/
def acceptsKwargs (params kwargs : List String) : Bool :=
  kwargs.all params.contains

/-- The `TypeError` Python raises for the `date` keyword at the
`prompt_assemble` call sites in `orchestrator.turn`. -/
def prompt_assemble_type_error : PyErr :=
  .typeError "prompt_assemble() got an unexpected keyword argument: date"

/-- The `prompt_assemble` call as `orchestrator.turn` performs it: the
keyword list is checked against the callee's parameters (Python call
semantics); only if all keywords bind does the callee body run. -/
def call_prompt_assemble (env : TurnEnv) (fetch_results : List FetchResult)
    (query : String) (history : List HistoryTurn) (tier : Nat) :
    Except PyErr AssembledPrompt :=
  if acceptsKwargs prompt_assemble_params orchestrator_prompt_kwargs then
    .ok (prompt_assemble fetch_results query env.systemText env.gamestate
          env.codexBudget history tier)
  else .error prompt_assemble_type_error

/-- `_select_interruptor` (`orchestrator.py` lines 65-92): build the weighted
pool (weight-0 actors excluded; debating actors excluded unless permitted to
interrupt their own debate), then pick by weighted random choice — the
randomness is the environment's `choose` function, reduced modulo the pool
size so a non-empty pool always yields an actor. -/
def select_interruptor (choose : List (ActorSpec × Nat) → Nat)
    (specs debating : List ActorSpec) : Option ActorSpec :=
  let debating_names := debating.map (fun s => pyLower s.first_name)
  let pool := specs.filterMap (fun s =>
    if s.interrupt_weight = 0 then none
    else if debating_names.contains (pyLower s.first_name) ∧ ¬ s.can_interrupt_own_debate
    then none
    else some (s, s.interrupt_weight))
  if pool.isEmpty then none
  else (pool[choose pool % pool.length]?).map (fun p => p.1)

/-- Router call of this turn (`identify_actor(query, state.specs)`). -/
def routerResult (env : TurnEnv) (query : String) : IdentifyResult :=
  identify_actor query env.specs (env.oracle query)

/-- Gate results of this turn (`tier_check_all(result.actors, state.tier)`). -/
def tierResults (env : TurnEnv) (st : OState) (query : String) : List TierResult :=
  tier_check_all (routerResult env query).actors st.tier

/-- The in-character drop-out lines collected for blocked actors. -/
def blockedLines (env : TurnEnv) (st : OState) (query : String) : List String :=
  (tierResults env st query).filterMap (fun tr =>
    if tr.confidence = .blocked then
      some (pyUpper tr.actor.spec.display_name ++ ": " ++ pyOptStr tr.error_message)
    else none)

/-- The non-blocked gate results (`active` in `turn`). -/
def activeResults (env : TurnEnv) (st : OState) (query : String) : List TierResult :=
  (tierResults env st query).filter (fun tr => tr.confidence ≠ .blocked)

/-- The flow type after the debate-to-standard collapse when blocking left a
single active actor (`orchestrator.py` lines 140-142). -/
def collapsed_flow (env : TurnEnv) (st : OState) (query : String) : FlowType :=
  if (routerResult env query).flow_type = .debate ∧ (activeResults env st query).length = 1
  then .standard else (routerResult env query).flow_type

/-- The debate-interrupt branch (`orchestrator.py` lines 150-165): fetch the
interruptor's fragments, assemble an interrupt prompt (the call that passes
the stray `date` keyword), generate and format one abbreviated reply, reset
the counter, and return immediately. -/
def interrupt_branch (env : TurnEnv) (st : OState) (query : String)
    (output_lines : List String) (interruptor : ActorSpec) : TurnOutput :=
  let ifetch := env.fetch interruptor query .full none
  match call_prompt_assemble env [ifetch] query st.history st.tier with
  | .error e => { result := .error e, state := st, trace := [.promptAssembleCalled] }
  | .ok iprompt =>
    let illm := llm_call env.backend iprompt "debate_interrupt"
    let iparsed := parse_response illm
    { result := .ok (joinNN (output_lines
        ++ [display iparsed "debate_interrupt" (some interruptor.display_name)]))
      state := { st with debate_turn := 0 }
      trace := [.promptAssembleCalled, .llmCalled "debate_interrupt"] }

/-- The main pipeline tail of `turn` (`orchestrator.py` lines 169-217):
fragment fetch per active actor, prompt assembly (the call passing the stray
`date` keyword), inference, parsing, action validation, commit, history
update and display. -/
def main_pipeline (env : TurnEnv) (st : OState) (query : String)
    (output_lines : List String) (active : List TierResult)
    (flow_type : FlowType) : TurnOutput :=
  let other_names := active.map (fun tr => tr.actor.spec.display_name)
  let fetches := active.map (fun tr =>
    let others := other_names.filter (fun n => n ≠ tr.actor.spec.display_name)
    env.fetch tr.actor.spec query tr.confidence (if others.isEmpty then none else some others))
  match call_prompt_assemble env fetches query st.history st.tier with
  | .error e => { result := .error e, state := st, trace := [.promptAssembleCalled] }
  | .ok prompt =>
    let llm_flow :=
      if active.any (fun tr => is_codex tr.actor.spec) then "codex"
      else if flow_type = .debate then "debate_turn" else "standard"
    let llm_result := llm_call env.backend prompt llm_flow
    let parsed := parse_response llm_result
    let validated : Option ActionOutcome :=
      match parsed.action with
      | some a => if a ≠ "" ∧ parsed.action_valid then some (validate_action a st.decision_log)
                  else none
      | none => none
    let log2 :=
      match validated with
      | some o => o.log
      | none => st.decision_log
    match active with
    | [] =>
      -- unreachable from turn (active checked non-empty); Python would raise
      -- IndexError at active[0]
      { result := .error (.indexError "list index out of range"), state := st, trace := [] }
    | tr0 :: _ =>
      let speaker := tr0.actor.spec.display_name
      let hist := st.history
        ++ [{ role := "user", speaker := "User", content := query },
            { role := "advisor", speaker := speaker, content := parsed.chat }]
      let hist20 := hist.drop (hist.length - 20)
      { result := .ok (joinNN (output_lines ++ [display parsed llm_flow (some speaker)]))
        state := { st with history := hist20, decision_log := log2 }
        trace := [.promptAssembleCalled, .llmCalled llm_flow, .committed] }

/-- `turn` (`orchestrator.py` lines 107-217).  Terminal-no-LLM exits return
the router's note or the blocked actors' refusal lines; the ambiguous flow
falls through to normal processing; debate turns increment the counter, with
the stage nudge at 3 and the interrupt branch at 5 or more; non-debate flows
reset the counter; the remaining pipeline runs through `main_pipeline`.
State mutations performed before an exception are preserved, as for the
in-place mutations of the Python `OrchestratorState`. -/
def turn (env : TurnEnv) (st : OState) (query : String) : TurnOutput :=
  let result := routerResult env query
  if result.flow_type = .too_vague ∨ result.flow_type = .too_broad
      ∨ result.flow_type = .no_match then
    { result := .ok (stage_direction (pyOrElse result.stage_note "The council does not respond."))
      state := st, trace := [] }
  else
    -- AMBIGUOUS falls through: actors resolve ambiguity in character
    let output_lines := blockedLines env st query
    let active := activeResults env st query
    if active.isEmpty then
      { result := .ok (if ¬ output_lines.isEmpty then joinNN output_lines
          else stage_direction "No advisor can help with this at the current tier.")
        state := st, trace := [] }
    else
      let flow_type := collapsed_flow env st query
      if flow_type = .debate then
        let st1 : OState := { st with debate_turn := st.debate_turn + 1 }
        let output_lines1 :=
          if st1.debate_turn = 3 then
            output_lines ++ [stage_direction "Positions are clear. A decision is needed."]
          else output_lines
        if st1.debate_turn ≥ 5 then
          match select_interruptor env.choose env.specs (active.map (fun tr => tr.actor.spec)) with
          | some interruptor => interrupt_branch env st1 query output_lines1 interruptor
          | none => main_pipeline env st1 query output_lines1 active flow_type
        else main_pipeline env st1 query output_lines1 active flow_type
      else
        main_pipeline env { st with debate_turn := 0 } query output_lines active flow_type

/-! ## Structural lemmas about turn

Both `prompt_assemble` call sites in `orchestrator.turn` pass the keyword
`date`, which is not among `prompt_assemble`'s parameters, so the call always
raises; the pipeline tails therefore have a fixed shape. -/

theorem acceptsKwargs_false :
    acceptsKwargs prompt_assemble_params orchestrator_prompt_kwargs = false := rfl

theorem call_prompt_assemble_err (env : TurnEnv) (fetch_results : List FetchResult)
    (query : String) (history : List HistoryTurn) (tier : Nat) :
    call_prompt_assemble env fetch_results query history tier
      = .error prompt_assemble_type_error := rfl

theorem main_pipeline_err (env : TurnEnv) (st : OState) (query : String)
    (output_lines : List String) (active : List TierResult) (flow_type : FlowType) :
    main_pipeline env st query output_lines active flow_type
      = { result := .error prompt_assemble_type_error, state := st
          trace := [.promptAssembleCalled] } := rfl

theorem interrupt_branch_err (env : TurnEnv) (st : OState) (query : String)
    (output_lines : List String) (interruptor : ActorSpec) :
    interrupt_branch env st query output_lines interruptor
      = { result := .error prompt_assemble_type_error, state := st
          trace := [.promptAssembleCalled] } := rfl

/-- A terminal router flow returns the stage note and leaves state untouched. -/
theorem turn_terminal (env : TurnEnv) (st : OState) (query : String)
    (hterm : (routerResult env query).flow_type = .too_vague
      ∨ (routerResult env query).flow_type = .too_broad
      ∨ (routerResult env query).flow_type = .no_match) :
    turn env st query
      = { result := .ok (stage_direction
            (pyOrElse (routerResult env query).stage_note "The council does not respond."))
          state := st, trace := [] } := by
  unfold turn
  rw [if_pos hterm]

/-- With no terminal flow and every actor blocked, the refusal lines are
returned and state is untouched. -/
theorem turn_all_blocked (env : TurnEnv) (st : OState) (query : String)
    (hterm : ¬((routerResult env query).flow_type = .too_vague
      ∨ (routerResult env query).flow_type = .too_broad
      ∨ (routerResult env query).flow_type = .no_match))
    (hact : (activeResults env st query).isEmpty = true) :
    turn env st query
      = { result := .ok (if ¬ (blockedLines env st query).isEmpty
            then joinNN (blockedLines env st query)
            else stage_direction "No advisor can help with this at the current tier.")
          state := st, trace := [] } := by
  unfold turn
  rw [if_neg hterm, if_pos hact]

/-- With no terminal flow, a non-empty active set and a non-debate collapsed
flow, the turn resets the counter and then aborts inside the pipeline at the
`prompt_assemble` call. -/
theorem turn_reaches_pipeline (env : TurnEnv) (st : OState) (query : String)
    (hterm : ¬((routerResult env query).flow_type = .too_vague
      ∨ (routerResult env query).flow_type = .too_broad
      ∨ (routerResult env query).flow_type = .no_match))
    (hact : (activeResults env st query).isEmpty = false)
    (hnd : collapsed_flow env st query ≠ .debate) :
    turn env st query
      = { result := .error prompt_assemble_type_error
          state := { st with debate_turn := 0 }, trace := [.promptAssembleCalled] } := by
  unfold turn
  rw [if_neg hterm, if_neg (by rw [hact]; exact Bool.false_ne_true), if_neg hnd,
    main_pipeline_err]

/-- The collapse only rewrites a debate flow; any other router flow survives. -/
theorem collapsed_flow_of_not_debate (env : TurnEnv) (st : OState) (query : String)
    (h : (routerResult env query).flow_type ≠ .debate) :
    collapsed_flow env st query = (routerResult env query).flow_type := by
  unfold collapsed_flow
  rw [if_neg (fun hc => h hc.1)]

/-! ## Concrete fixtures for counterexamples and witnesses -/

set_option maxRecDepth 1000000

/-- A tier-1 advisor whose first name is an explicit routing token. -/
def kim_spec : ActorSpec :=
  { first_name := "kim", family_name := "yang", nickname := ""
    display_name := "Kim Yang", tier_1_scope := "domestic policy" }

/-- A second tier-1 advisor (implicit-routing candidate). -/
def lee_spec : ActorSpec :=
  { first_name := "lee", family_name := "", nickname := ""
    display_name := "Lee Park", tier_1_scope := "economy" }

/-- An advisor eligible to interrupt debates (non-zero interrupt weight). -/
def rok_spec : ActorSpec :=
  { first_name := "rok", family_name := "", nickname := ""
    display_name := "Rok Chan", tier_1_scope := "military", interrupt_weight := 3 }

/-- An advisor sharing the family-name token `kim` with `kim_spec`. -/
def kim2_spec : ActorSpec :=
  { first_name := "minjun", family_name := "kim", nickname := ""
    display_name := "Minjun Kim", tier_1_scope := "science" }

/-- Baseline environment: three advisors, an oracle that scores the query
`economy outlook?` onto two sub-0.7 candidates (a two-support debate) and
nothing else, a deterministic chooser, a stub fragment fetcher, and a backend
that times out. -/
def base_env : TurnEnv :=
  { specs := [kim_spec, lee_spec, rok_spec]
    oracle := fun q =>
      if q = "economy outlook?" then [(kim_spec, mkRat 1 2), (lee_spec, mkRat 2 5)] else []
    choose := fun _ => 0
    fetch := fun s _ _ _ =>
      { actor := s, fragments := [{ category := "base", content := "Name: " ++ s.display_name }] }
    backend := .timeout
    systemText := "Council rules. Tier {tier}."
    gamestate := ""
    codexBudget := 40 }

/-- Environment with two advisors both matching the token `kim`. -/
def ambig_env : TurnEnv := { base_env with specs := [kim_spec, kim2_spec] }

/-- Fresh session state at tier 1. -/
def base_state : OState := { tier := 1, history := [], debate_turn := 0, decision_log := [] }

/-- Session state mid-debate (counter 2). -/
def state_d2 : OState := { base_state with debate_turn := 2 }

/-- Session state one turn before the interrupt threshold (counter 4). -/
def state_d4 : OState := { base_state with debate_turn := 4 }

/-- A one-fragment fetch result for the prompt-assembly fixture. -/
def c5_fetch : FetchResult :=
  { actor := kim_spec, fragments := [{ category := "base", content := "Name: Kim Yang" }] }

/-- A 61-line world-state report (61 lines against the default budget of 40). -/
def report61 : String := String.intercalate "\n" (List.replicate 61 "ln")

/-! ## Claim theorems -/

/-- Claim C8: the parser always returns a ParsedResponse whose chat field is
non-empty — whenever extraction yields nothing usable, the fixed fallback
reply string is substituted. -/
theorem parse_response_chat_never_empty (r : LLMResult) : (parse_response r).chat ≠ "" := by
  simp only [parse_response]
  split
  · split
    · show FALLBACK_RESPONSE ≠ ""
      decide
    · rename_i h
      exact h
  · split
    · show FALLBACK_RESPONSE ≠ ""
      decide
    · split
      · show FALLBACK_RESPONSE ≠ ""
        decide
      · rename_i h
        exact h

/-- Claim C4 (counterexample): for raw output ` Understood. ` with zero
recognized tags, the chat field is the stripped text `Understood.`, not the
raw output verbatim as the claim states. -/
theorem no_tags_chat_not_verbatim_counterexample :
    findBlocks (pyStrip " Understood. ") = [] ∧
    " Understood. " ≠ "" ∧
    (parse_response { raw := " Understood. ", flow_type := "standard", success := true }).chat
      ≠ " Understood. " ∧
    (parse_response { raw := " Understood. ", flow_type := "standard", success := true }).chat
      = "Understood." := by decide

/-- Claim C4 (amended): for any raw model output containing zero recognized
tags, the parser returns thought and action both absent, and chat equal to
the whitespace-stripped raw output — or the fixed fallback reply with
fallback_used true when the raw output is empty or whitespace-only. -/
theorem no_tags_chat_is_stripped_raw (r : LLMResult)
    (h : findBlocks (pyStrip r.raw) = []) :
    (parse_response r).thought = none ∧ (parse_response r).action = none ∧
    (pyStrip r.raw = "" →
      (parse_response r).chat = FALLBACK_RESPONSE ∧ (parse_response r).fallback_used = true) ∧
    (pyStrip r.raw ≠ "" →
      (parse_response r).chat = pyStrip r.raw ∧ (parse_response r).fallback_used = false) := by
  simp only [parse_response, h, List.isEmpty_nil, if_true]
  refine ⟨trivial, trivial, fun he => ?_, fun hne => ?_⟩
  · simp [he]
  · simp [hne]

/-- Claim C4 witness: the amended statement at a concrete untagged output. -/
theorem no_tags_chat_witness :
    (parse_response { raw := "All quiet.", flow_type := "standard", success := true }).thought
      = none ∧
    (parse_response { raw := "All quiet.", flow_type := "standard", success := true }).chat
      = "All quiet." := by
  have h := no_tags_chat_is_stripped_raw
    { raw := "All quiet.", flow_type := "standard", success := true } (by decide)
  exact ⟨h.1, (h.2.2.2 (by decide)).1⟩

/-- Claim C10: the router never returns the no_match flow: zero explicit
matches fall through to the implicit phase, which yields too_vague,
too_broad, standard, or debate, for every query, roster and oracle result. -/
theorem router_never_no_match (input : String) (specs : List ActorSpec)
    (scored : List (ActorSpec × Rat)) :
    (identify_actor input specs scored).flow_type ≠ FlowType.no_match ∧
    (explicit_match input specs = [] →
      (identify_actor input specs scored).flow_type = .too_vague ∨
      (identify_actor input specs scored).flow_type = .too_broad ∨
      (identify_actor input specs scored).flow_type = .standard ∨
      (identify_actor input specs scored).flow_type = .debate) := by
  unfold identify_actor
  dsimp only
  split
  · split
    · exact ⟨by simp, fun _ => Or.inl (by simp)⟩
    · split
      · exact ⟨by simp, fun _ => Or.inr (Or.inl (by simp))⟩
      · constructor
        · split <;> simp
        · intro _
          split
          · exact Or.inr (Or.inr (Or.inr (by simp)))
          · exact Or.inr (Or.inr (Or.inl (by simp)))
  · rename_i hne
    constructor
    · split <;> simp
    · intro he
      exact absurd (by rw [he]; rfl) hne

/-- Writing a key not present in the ledger makes it readable. -/
theorem logGet_logSet_self (log : List (String × String)) (k v : String) :
    logGet (logSet log k v) k = some v := by
  induction log with
  | nil => simp [logSet, logGet]
  | cons e t ih =>
    unfold logSet
    cases h : e.1 == k with
    | true => simp [logGet, h]
    | false => simp [logGet, h, ih]

/-- Claim C2 (counterexample): issuing the same normalized UPDATE action
twice against the same ledger executes the update business-logic stub in
both calls — the second issuance's execution trace is non-empty — refuting
"never executes the business logic twice", although both calls return the
ruling allowed. -/
theorem update_reexecutes_on_replay_counterexample :
    (validate_action "UPDATE priorities SET focus=military" []).exec
      = [.update "priorities SET focus=military"] ∧
    (validate_action "UPDATE priorities SET focus=military"
        (validate_action "UPDATE priorities SET focus=military" []).log).exec
      = [.update "priorities SET focus=military"] ∧
    (validate_action "UPDATE priorities SET focus=military" []).result.ruling = "allowed" ∧
    (validate_action "UPDATE priorities SET focus=military"
        (validate_action "UPDATE priorities SET focus=military" []).log).result.ruling
      = "allowed" := by decide

/-- Claim C2 (amended): issuing the same normalized UPDATE action twice
returns the ruling allowed both times and writes only one ledger entry (the
second call leaves the ledger unchanged), but the second issuance re-executes
the business logic rather than replaying without execution — only a prior
denied ruling short-circuits execution. -/
theorem update_replay_same_ruling_single_entry (action : String)
    (log : List (String × String))
    (hverb : (parse_action action).1 = "UPDATE")
    (hnew : logGet log (log_key action) = none) :
    (validate_action action log).result.ruling = "allowed" ∧
    (validate_action action (validate_action action log).log).result.ruling = "allowed" ∧
    (validate_action action (validate_action action log).log).log
      = (validate_action action log).log ∧
    (validate_action action (validate_action action log).log).exec ≠ [] := by
  refine ⟨?_, ?_, ?_, ?_⟩ <;>
    simp [validate_action, hverb, hnew, logGet_logSet_self]

/-- Claim C2 witness: the amended statement at a concrete UPDATE action
against an empty ledger. -/
theorem update_replay_witness :
    (validate_action "UPDATE stance SET posture=defensive" []).result.ruling = "allowed" ∧
    (validate_action "UPDATE stance SET posture=defensive"
        (validate_action "UPDATE stance SET posture=defensive" []).log).result.ruling
      = "allowed" ∧
    (validate_action "UPDATE stance SET posture=defensive"
        (validate_action "UPDATE stance SET posture=defensive" []).log).log
      = (validate_action "UPDATE stance SET posture=defensive" []).log := by
  have h := update_replay_same_ruling_single_entry "UPDATE stance SET posture=defensive" []
    (by decide) (by decide)
  exact ⟨h.1, h.2.1, h.2.2.1⟩

theorem countNL_append (a b : String) : countNL (a ++ b) = countNL a + countNL b := by
  simp [countNL, String.toList, String.data_append, List.count_append]

/-- The over-budget instruction text always spans exactly six lines (five
newlines); in particular it never has more than the default budget of lines. -/
theorem countNL_over_budget_msg (lc b : Nat) :
    countNL (codex_over_budget_msg lc b) = 5 := by
  unfold codex_over_budget_msg
  simp only [countNL_append, countNL_natStr]
  decide

/-- Claim C9: with an archival persona active, an empty world-state report is
replaced by the fixed no-data placeholder; a report within the line budget is
included verbatim; a report whose line count exceeds the budget is replaced
by the over-budget stage-direction instruction, and for the default budget of
40 that instruction is never the report itself (never included verbatim). -/
theorem codex_report_budget_behavior (budget : Nat) (report : String) :
    (report = "" → codex_report_or_stage_direction budget report
        = "[No game state data available. CODEX is silent.]") ∧
    (report ≠ "" → countNL report + 1 ≤ budget →
        codex_report_or_stage_direction budget report = report) ∧
    (report ≠ "" → budget < countNL report + 1 →
        codex_report_or_stage_direction budget report
          = codex_over_budget_msg (countNL report + 1) budget ∧
        (budget = 40 → codex_report_or_stage_direction budget report ≠ report)) := by
  refine ⟨fun he => ?_, fun hne hle => ?_, fun hne hgt => ?_⟩
  · simp [codex_report_or_stage_direction, he]
  · simp [codex_report_or_stage_direction, hne, hle]
  · have hmsg : codex_report_or_stage_direction budget report
        = codex_over_budget_msg (countNL report + 1) budget := by
      simp [codex_report_or_stage_direction, hne, Nat.not_le.mpr hgt]
    refine ⟨hmsg, fun hb heq => ?_⟩
    have h5 : countNL report = 5 := by
      conv_lhs => rw [← heq, hmsg]
      exact countNL_over_budget_msg (countNL report + 1) budget
    omega

/-- Claim C9 witness: a 61-line report against the default budget of 40 is
replaced by the over-budget instruction and is not included verbatim. -/
theorem codex_report_budget_witness :
    codex_report_or_stage_direction 40 report61 = codex_over_budget_msg 61 40 ∧
    codex_report_or_stage_direction 40 report61 ≠ report61 := by
  have h := (codex_report_budget_behavior 40 report61).2.2 (by decide) (by decide)
  have hc : countNL report61 + 1 = 61 := by decide
  rw [hc] at h
  exact ⟨h.1, h.2 rfl⟩

/-- Claim C10 witness: a query with no explicit and no implicit candidates
exits through the implicit phase as too_vague, not no_match. -/
theorem router_never_no_match_witness :
    (identify_actor "status?" [kim_spec] []).flow_type ≠ FlowType.no_match ∧
    ((identify_actor "status?" [kim_spec] []).flow_type = .too_vague ∨
      (identify_actor "status?" [kim_spec] []).flow_type = .too_broad ∨
      (identify_actor "status?" [kim_spec] []).flow_type = .standard ∨
      (identify_actor "status?" [kim_spec] []).flow_type = .debate) := by
  have h := router_never_no_match "status?" [kim_spec] []
  exact ⟨h.1, h.2 (by decide)⟩

/-- Claim C1: a query explicitly routing to a single non-blocked actor, with
the inference backend set to time out, does not complete the turn with the
fallback reply — `turn` aborts with the `TypeError` Python raises for the
stray `date` keyword argument at the `prompt_assemble` call site, before any
inference or commit happens. -/
theorem turn_raises_type_error_on_inference_failure :
    (routerResult base_env "kim, report.").flow_type = FlowType.standard ∧
    (activeResults base_env base_state "kim, report.") ≠ [] ∧
    base_env.backend = BackendOutcome.timeout ∧
    (turn base_env base_state "kim, report.").result = .error prompt_assemble_type_error ∧
    (turn base_env base_state "kim, report.").trace = [.promptAssembleCalled] := by decide

/-- Claim C3 (counterexample): a query matching two actors' name tokens
yields the ambiguous flow with its note, yet the turn does not surface that
note — it falls through to the pipeline and aborts there. -/
theorem ambiguous_note_not_surfaced_counterexample :
    (routerResult ambig_env "kim?").flow_type = FlowType.ambiguous ∧
    (routerResult ambig_env "kim?").stage_note
      = some "Ambiguous: matches Kim Yang, Minjun Kim" ∧
    (turn ambig_env base_state "kim?").result
      ≠ .ok (stage_direction "Ambiguous: matches Kim Yang, Minjun Kim") ∧
    (turn ambig_env base_state "kim?").result = .error prompt_assemble_type_error := by decide

/-- Claim C3 (amended): the ambiguous flow is not terminal — the router's
note is not surfaced to the caller; whenever at least one matched actor
passes the gate, the turn proceeds into the normal pipeline (where, in the
code as written, the prompt-assembly call raises a TypeError before any
inference call). -/
theorem ambiguous_flow_not_terminal (env : TurnEnv) (st : OState) (query : String)
    (hflow : (routerResult env query).flow_type = FlowType.ambiguous)
    (hact : (activeResults env st query).isEmpty = false) :
    (turn env st query).trace = [TurnEvent.promptAssembleCalled] ∧
    (turn env st query).result = .error prompt_assemble_type_error ∧
    ∀ (note : String), (turn env st query).result ≠ .ok note := by
  have hterm : ¬((routerResult env query).flow_type = .too_vague
      ∨ (routerResult env query).flow_type = .too_broad
      ∨ (routerResult env query).flow_type = .no_match) := by
    rw [hflow]; intro hor; rcases hor with h | h | h <;> exact absurd h (by decide)
  have hnd : collapsed_flow env st query ≠ .debate := by
    rw [collapsed_flow_of_not_debate env st query (by rw [hflow]; decide), hflow]; decide
  have h := turn_reaches_pipeline env st query hterm hact hnd
  rw [h]
  exact ⟨rfl, rfl, fun note hnote => by exact absurd hnote (by simp)⟩

/-- Claim C3 witness: the amended statement at the concrete ambiguous query. -/
theorem ambiguous_flow_not_terminal_witness :
    (turn ambig_env base_state "kim?").trace = [TurnEvent.promptAssembleCalled] ∧
    (turn ambig_env base_state "kim?").result = .error prompt_assemble_type_error := by
  have h := ambiguous_flow_not_terminal ambig_env base_state "kim?" (by decide) (by decide)
  exact ⟨h.1, h.2.1⟩

/-- Claim C5: in the assembled suffix the raw query is not last — the fixed
closing instruction `Respond now using [THOUGHT] and [CHAT] tags only.`
follows it, contradicting the repo's own test `test_query_is_last_section`
(which asserts the suffix ends with the query). -/
theorem prompt_suffix_not_query_last :
    endsWithStr (prompt_assemble [c5_fetch] "my specific query"
        "Council rules. Tier {tier}." "" 40 [] 1).user "my specific query" = false ∧
    endsWithStr (prompt_assemble [c5_fetch] "my specific query"
        "Council rules. Tier {tier}." "" 40 [] 1).user CLOSING_INSTRUCTION = true := by decide

/-- Claim C6: with the debate counter reaching 5 and an eligible interrupt
persona selected, the turn does not generate the abbreviated interrupt reply
or reset the counter — it aborts with the TypeError raised for the stray
`date` keyword at the interrupt branch's prompt-assembly call, leaving the
counter at 5. -/
theorem debate_interrupt_raises_type_error :
    (routerResult base_env "economy outlook?").flow_type = FlowType.debate ∧
    select_interruptor base_env.choose base_env.specs [kim_spec, lee_spec] = some rok_spec ∧
    (turn base_env state_d4 "economy outlook?").result = .error prompt_assemble_type_error ∧
    (turn base_env state_d4 "economy outlook?").state.debate_turn = 5 := by decide

/-- Claim C7 (counterexample): a completed non-debate turn (a too_vague
terminal exit) returns with the debate counter still at its previous value 2,
refuting "the counter is 0 when the turn returns". -/
theorem terminal_exit_keeps_counter_counterexample :
    (routerResult base_env "hmm").flow_type = FlowType.too_vague ∧
    (turn base_env state_d2 "hmm").result
      = .ok "[Query matched no advisor domain. Please be more specific.]" ∧
    (turn base_env state_d2 "hmm").state.debate_turn = 2 := by decide

/-- Claim C7 (amended): terminal no-LLM exits (too_vague, too_broad,
no_match, and the all-blocked exit) leave the debate counter unchanged; only
a non-debate flow that passes routing and gating resets the counter to 0
(which it does even though, as written, the pipeline then aborts at prompt
assembly). -/
theorem debate_counter_reset_discipline (env : TurnEnv) (st : OState) (query : String) :
    (((routerResult env query).flow_type = FlowType.too_vague
        ∨ (routerResult env query).flow_type = .too_broad
        ∨ (routerResult env query).flow_type = .no_match) →
      (turn env st query).state.debate_turn = st.debate_turn) ∧
    (¬((routerResult env query).flow_type = .too_vague
        ∨ (routerResult env query).flow_type = .too_broad
        ∨ (routerResult env query).flow_type = .no_match) →
      (activeResults env st query).isEmpty = true →
      (turn env st query).state.debate_turn = st.debate_turn) ∧
    (¬((routerResult env query).flow_type = .too_vague
        ∨ (routerResult env query).flow_type = .too_broad
        ∨ (routerResult env query).flow_type = .no_match) →
      (activeResults env st query).isEmpty = false →
      collapsed_flow env st query ≠ .debate →
      (turn env st query).state.debate_turn = 0) := by
  refine ⟨fun hterm => ?_, fun hterm hact => ?_, fun hterm hact hnd => ?_⟩
  · rw [turn_terminal env st query hterm]
  · rw [turn_all_blocked env st query hterm hact]
  · rw [turn_reaches_pipeline env st query hterm hact hnd]

/-- Claim C7 witness: the amended statement at concrete inputs — the
too_vague exit keeps the counter at 2; a completed gate pass with a
non-debate flow resets it to 0. -/
theorem debate_counter_reset_witness :
    (turn base_env state_d2 "hmm").state.debate_turn = state_d2.debate_turn ∧
    (turn base_env state_d2 "kim, report.").state.debate_turn = 0 := by
  have h1 := (debate_counter_reset_discipline base_env state_d2 "hmm").1 (by decide)
  have h2 := (debate_counter_reset_discipline base_env state_d2 "kim, report.").2.2
    (by decide) (by decide) (by decide)
  exact ⟨h1, h2⟩

end TIAS
